import Mathlib

/-!
Shallow embedding of `src/tele_app.py` (FastAPI proxy over the Telethon
Telegram client).  The external client library is modelled by an oracle
(`World`) fixing the outcome of each external call, and every handler is a
pure function of the manager state, the oracle and the request, returning
the HTTP outcome together with the trace of calls issued to the external
client.

Python exception flow matters here and is embedded faithfully:
`fastapi.HTTPException` is a subclass of `Exception`, so an
`HTTPException` raised inside a `try` body is caught by a
`except Exception as e` clause of that `try` and re-raised as
`HTTPException(500, str(e))`, where `str` of an HTTPException is
`f"{status_code}: {detail}"` (starlette).  An `HTTPException` raised
inside an `except` clause of the same `try` is NOT caught by the sibling
`except Exception` clause and reaches FastAPI unchanged.
-/

/-- `session_name` constant, tele_app.py line 13. -/
def session_file_path : String := "session_name"

/-- `UPLOAD_DIR = "uploads"`, tele_app.py line 67. -/
def UPLOAD_DIR : String := "uploads"

/-- Request body of POST /generate_otp (class PhoneNumber, lines 15-18). -/
structure PhoneNumber where
  phone : String
  app_id : Int
  app_hash : String
deriving DecidableEq

/-- Request body of POST /verify_otp (class OTPVerification, lines 20-23). -/
structure OTPVerification where
  phone : String
  code : String
  phone_code_hash : String
deriving DecidableEq

/-- Request body of POST /send_story (class StoryRequest, lines 25-29). -/
structure StoryRequest where
  peer : String
  file_path : String
  spoiler : Bool := true
  ttl_seconds : Int := 42
deriving DecidableEq

/-- A constructed `TelegramClient` handle (line 47).  `id` is an allocation
identifier distinguishing successive handles; the credentials are the
constructor arguments `TelegramClient(session_file_path, app_id, app_hash)`. -/
structure TelegramClient where
  id : Nat
  session : String
  app_id : Int
  app_hash : String
deriving DecidableEq

/-- State of `TelegramClientManager` (lines 31-35): `client`, `app_id` and
`app_hash` start as `None`.  `next_id` is the allocation counter giving each
constructed handle its identity. -/
structure TelegramClientManager where
  client : Option TelegramClient
  app_id : Option Int
  app_hash : Option String
  next_id : Nat
deriving DecidableEq

/-- One call issued to the external Telethon client. -/
inductive Call where
  | disconnect (id : Nat)
  | connect (id : Nat)
  | send_code_request (phone : String) (force_sms : Bool)
  | sign_in (phone : String) (code : String) (phone_code_hash : String)
  | get_me
  | is_user_authorized
  | upload_file (path : String)
  | send_story_request (peer : String) (file_ref : Nat) (spoiler : Bool)
      (ttl_seconds : Int)
deriving DecidableEq

/-- An HTTP error response produced via `HTTPException(status_code, detail)`. -/
structure Http where
  status : Nat
  detail : String
deriving DecidableEq

/-- `str(e)` for a fastapi/starlette `HTTPException e`:
`f"{e.status_code}: {e.detail}"`. -/
def httpStr (status : Nat) (detail : String) : String :=
  toString status ++ ": " ++ detail

/-- Outcome of `client.sign_in(...)` (line 107): success, or one of the two
Telethon errors the handler distinguishes (lines 114, 116), or any other
exception with its message. -/
inductive SignInOutcome where
  | success
  | sessionPasswordNeeded
  | phoneCodeInvalid
  | otherError (msg : String)
deriving DecidableEq

/-- Oracle fixing the outcome of each external-client call: an `Except`
error means the call raised an exception carrying that message. -/
structure World where
  send_code_result : Except String String
  sign_in_result : SignInOutcome
  get_me_result : Except String String
  is_user_authorized_result : Except String Bool
  upload_file_result : Except String Nat
  send_story_result : Except String Unit

/-- `TelegramClientManager.get_client` (lines 37-40): raises
`HTTPException(400, "Client not initialized")` when `self.client` is
falsy, else returns the handle. -/
def TelegramClientManager.get_client (s : TelegramClientManager) :
    Except Http TelegramClient :=
  match s.client with
  | none => .error ⟨400, "Client not initialized"⟩
  | some h => .ok h

/-- The `get_client` method as an operation on the manager: its result, the
manager state after the call, and the external calls it issues.  The body
(lines 37-40) only reads `self.client`: it writes no attribute and calls
nothing on the external client. -/
def get_client_op (s : TelegramClientManager) :
    Except Http TelegramClient × TelegramClientManager × List Call :=
  (s.get_client, s, [])

/-- `TelegramClientManager.initialize_client` (lines 42-48): if a client
exists, `await self.client.disconnect()`; then store the credentials,
construct a fresh `TelegramClient` and `await self.client.connect()`. -/
def TelegramClientManager.initialize_client (s : TelegramClientManager)
    (app_id : Int) (app_hash : String) : TelegramClientManager × List Call :=
  let pre : List Call :=
    match s.client with
    | some h => [Call.disconnect h.id]
    | none => []
  let h : TelegramClient := ⟨s.next_id, session_file_path, app_id, app_hash⟩
  (⟨some h, some app_id, some app_hash, s.next_id + 1⟩,
    pre ++ [Call.connect s.next_id])

/-- `TelegramClientManager.disconnect` (lines 50-52): if a client exists,
`await self.client.disconnect()`.  No attribute is written either way. -/
def TelegramClientManager.disconnect (s : TelegramClientManager) :
    TelegramClientManager × List Call :=
  match s.client with
  | none => (s, [])
  | some h => (s, [Call.disconnect h.id])

/-- Number of live (connected, not yet disconnected) handles after a call
trace, starting from `n` live handles. -/
def live_after (n : Nat) : List Call → Nat
  | [] => n
  | Call.connect _ :: rest => live_after (n + 1) rest
  | Call.disconnect _ :: rest => live_after (n - 1) rest
  | _ :: rest => live_after n rest

/-- Last index of character `c` in `l`, Python `str.rfind`: `-1` if absent. -/
def lastIdx (c : Char) (l : List Char) : Int :=
  match l.reverse.findIdx? (· == c) with
  | none => -1
  | some j => (l.length : Int) - 1 - (j : Int)

/-- `os.path.splitext` (posixpath: `sep='/'`, no altsep, `extsep='.'`):
split at the last dot if it lies after the last separator, except that a
basename consisting only of leading dots up to that dot is not split. -/
def splitext (p : String) : String × String :=
  let l := p.data
  let si := lastIdx '/' l
  let di := lastIdx '.' l
  if si < di then
    let start := (si + 1).toNat
    let d := di.toNat
    if (List.range' start (d - start)).any (fun k => l.getD k '.' != '.') then
      (⟨l.take d⟩, ⟨l.drop d⟩)
    else
      (p, "")
  else
    (p, "")

/-- `unique_filename = f"{uuid4()}{file_extension}"` (lines 77-78), with the
generated uuid string `u` passed as a parameter. -/
def unique_filename (u : String) (filename : String) : String :=
  u ++ (splitext filename).2

/-- `file_uri = f"/uploads/{unique_filename}"` returned by POST
/upload_image (lines 73-88), with the generated uuid string `u` a
parameter (the disk write itself is I/O and not modelled). -/
def upload_image (u : String) (filename : String) : String :=
  "/uploads/" ++ unique_filename u filename

/-- POST /generate_otp (lines 93-101): re-initialize the shared client with
the supplied credentials, then `send_code_request(phone, force_sms=True)`;
on success return `result.phone_code_hash`, on any exception respond
`HTTPException(500, str(e))`.  (`get_client` on line 97 runs right after
`initialize_client`, so the client exists and it returns it.) -/
def generate_otp (s : TelegramClientManager) (w : World) (pn : PhoneNumber) :
    Except Http String × TelegramClientManager × List Call :=
  let p := s.initialize_client pn.app_id pn.app_hash
  let trace := p.2 ++ [Call.send_code_request pn.phone true]
  match w.send_code_result with
  | .error m => (.error ⟨500, m⟩, p.1, trace)
  | .ok hash => (.ok hash, p.1, trace)

/-- POST /verify_otp (lines 103-119).  `get_client()` is called INSIDE the
`try` (line 106): with no client it raises `HTTPException(400, ...)`, which
matches neither `except SessionPasswordNeededError` nor
`except PhoneCodeInvalidError` but does match `except Exception as e`
(line 118), so the handler re-raises `HTTPException(500, str(e))`.  The two
Telethon errors are re-raised as distinct 401 responses from inside their
`except` clauses (lines 114-117), which the sibling `except Exception`
does not catch. -/
def verify_otp (s : TelegramClientManager) (w : World) (r : OTPVerification) :
    Except Http String × List Call :=
  match s.client with
  | none =>
      (.error ⟨500, httpStr 400 "Client not initialized"⟩, [])
  | some _ =>
      let c := Call.sign_in r.phone r.code r.phone_code_hash
      match w.sign_in_result with
      | .sessionPasswordNeeded =>
          (.error ⟨401,
            "Two-step verification is enabled. Please provide the password."⟩,
            [c])
      | .phoneCodeInvalid =>
          (.error ⟨401, "Invalid code provided."⟩, [c])
      | .otherError m => (.error ⟨500, m⟩, [c])
      | .success =>
          match w.get_me_result with
          | .error m => (.error ⟨500, m⟩, [c, Call.get_me])
          | .ok name => (.ok ("Authenticated as " ++ name), [c, Call.get_me])

/-- POST /send_story (lines 121-137).  `get_client` runs as a `Depends`
dependency BEFORE the `try`, so its `HTTPException(400, ...)` reaches
FastAPI as a 400.  The `HTTPException(401, "Unauthorized. ...")` raised on
line 125 is inside the `try`, so `except Exception as e` (line 136)
catches it and the handler responds `HTTPException(500, str(e))` instead.
`upload_file` runs before `SendStoryRequest` (the argument on line 129 is
awaited while building the request of line 126). -/
def send_story (s : TelegramClientManager) (w : World) (r : StoryRequest) :
    Except Http String × List Call :=
  match s.client with
  | none => (.error ⟨400, "Client not initialized"⟩, [])
  | some _ =>
      match w.is_user_authorized_result with
      | .error m => (.error ⟨500, m⟩, [Call.is_user_authorized])
      | .ok false =>
          (.error ⟨500, httpStr 401 "Unauthorized. Please authenticate first."⟩,
            [Call.is_user_authorized])
      | .ok true =>
          match w.upload_file_result with
          | .error m =>
              (.error ⟨500, m⟩,
                [Call.is_user_authorized, Call.upload_file r.file_path])
          | .ok fref =>
              let full := [Call.is_user_authorized,
                Call.upload_file r.file_path,
                Call.send_story_request r.peer fref r.spoiler r.ttl_seconds]
              match w.send_story_result with
              | .error m => (.error ⟨500, m⟩, full)
              | .ok _ => (.ok "Story sent successfully", full)

deriving instance DecidableEq for Except

/-! Helper lemmas shared by several claims. -/

/-- Strings are equal iff their character lists are. -/
theorem string_eq_of_data (a b : String) (h : a.data = b.data) : a = b := by
  cases a
  cases b
  exact congrArg String.mk h

/-- String append is cancellative on both sides. -/
theorem string_append_cancel (p u v e : String)
    (h : p ++ u ++ e = p ++ v ++ e) : u = v := by
  have h2 := congrArg String.data h
  simp only [String.data_append, List.append_assoc, List.append_cancel_left_eq,
    List.append_cancel_right_eq] at h2
  exact string_eq_of_data u v h2

/-- C1: the claim states that when `is_user_authorized()` reports false,
POST /send_story responds 401 rather than the generic 500.  The code does
the opposite: the `HTTPException(401, "Unauthorized. Please authenticate
first.")` raised on line 125 sits inside the `try` block, so the blanket
`except Exception as e` on line 136 catches it (HTTPException subclasses
Exception) and re-raises `HTTPException(500, str(e))` — the handler
answers 500 with detail `"401: Unauthorized. Please authenticate
first."`. -/
theorem C1_send_story_unauthorized_gives_500 :
    (send_story ⟨some ⟨0, "session_name", 1, "a"⟩, some 1, some "a", 1⟩
        ⟨.ok "h", .success, .ok "n", .ok false, .ok 0, .ok ()⟩
        ⟨"me", "f.jpg", true, 42⟩).1 =
      .error ⟨500, "401: Unauthorized. Please authenticate first."⟩ := by
  rfl

/-- C2: the claim states that POST /verify_otp before any initialize fails
with a client error (4xx).  The code fails with 500: `get_client()` on
line 106 raises `HTTPException(400, "Client not initialized")` inside the
`try`, and the blanket `except Exception as e` on line 118 catches it and
re-raises `HTTPException(500, str(e))`, so the caller sees 500 with detail
`"400: Client not initialized"`. -/
theorem C2_verify_otp_uninitialized_gives_500 :
    (verify_otp ⟨none, none, none, 0⟩
        ⟨.ok "h", .success, .ok "n", .ok true, .ok 0, .ok ()⟩
        ⟨"+15550001", "00000", "T1"⟩).1 =
      .error ⟨500, "400: Client not initialized"⟩ := by
  rfl

/-- C3: POST /verify_otp maps the invalid-code failure and the
two-factor-password-required failure of `sign_in` to two distinct 401
responses, distinguishable from each other, and neither is a 500. -/
theorem C3_verify_otp_distinct_auth_errors (s : TelegramClientManager)
    (h : TelegramClient) (w₁ w₂ : World) (r : OTPVerification)
    (hc : s.client = some h)
    (h1 : w₁.sign_in_result = SignInOutcome.sessionPasswordNeeded)
    (h2 : w₂.sign_in_result = SignInOutcome.phoneCodeInvalid) :
    (verify_otp s w₁ r).1 =
      .error ⟨401,
        "Two-step verification is enabled. Please provide the password."⟩ ∧
    (verify_otp s w₂ r).1 = .error ⟨401, "Invalid code provided."⟩ ∧
    (verify_otp s w₁ r).1 ≠ (verify_otp s w₂ r).1 ∧
    (∀ d, (verify_otp s w₁ r).1 ≠ .error ⟨500, d⟩) ∧
    (∀ d, (verify_otp s w₂ r).1 ≠ .error ⟨500, d⟩) := by
  simp only [verify_otp, hc, h1, h2]
  refine ⟨trivial, trivial, by decide, ?_, ?_⟩ <;> intro d hd <;> simp at hd

/-- C3 witness: concrete two-factor-enabled account. -/
theorem C3_verify_otp_distinct_auth_errors_witness :
    (verify_otp ⟨some ⟨0, "session_name", 1, "a"⟩, some 1, some "a", 1⟩
        ⟨.ok "h", .sessionPasswordNeeded, .ok "n", .ok true, .ok 0, .ok ()⟩
        ⟨"+15550001", "00000", "T1"⟩).1 =
      .error ⟨401,
        "Two-step verification is enabled. Please provide the password."⟩ :=
  (C3_verify_otp_distinct_auth_errors _ ⟨0, "session_name", 1, "a"⟩ _
    ⟨.ok "h", .phoneCodeInvalid, .ok "n", .ok true, .ok 0, .ok ()⟩
    ⟨"+15550001", "00000", "T1"⟩ rfl rfl rfl).1

/-- C7: `get_client` with no handle fails with the 400 "Client not
initialized" error, and for every state it is a pure read: the state after
the call is the state before, and no external call is issued. -/
theorem C7_get_client_uninitialized_pure :
    (∀ s : TelegramClientManager, s.client = none →
        (get_client_op s).1 = .error ⟨400, "Client not initialized"⟩) ∧
    (∀ s : TelegramClientManager,
        (get_client_op s).2.1 = s ∧ (get_client_op s).2.2 = []) := by
  constructor
  · intro s hs
    simp [get_client_op, TelegramClientManager.get_client, hs]
  · intro s
    exact ⟨rfl, rfl⟩

/-- C7 witness: the fresh manager state. -/
theorem C7_get_client_uninitialized_pure_witness :
    (get_client_op ⟨none, none, none, 0⟩).1 =
      .error ⟨400, "Client not initialized"⟩ :=
  C7_get_client_uninitialized_pure.1 ⟨none, none, none, 0⟩ rfl

/-- C9: `disconnect` with no handle is a no-op: the state is unchanged, no
external call is issued, no error is raised (the operation is total), and
calling it again from the resulting state is the same no-op. -/
theorem C9_disconnect_no_handle_noop (s : TelegramClientManager)
    (hs : s.client = none) :
    s.disconnect = (s, []) ∧ (s.disconnect).1.disconnect = (s, []) := by
  simp [TelegramClientManager.disconnect, hs]

/-- C9 witness: the fresh manager state. -/
theorem C9_disconnect_no_handle_noop_witness :
    TelegramClientManager.disconnect ⟨none, none, none, 0⟩ =
      (⟨none, none, none, 0⟩, []) :=
  (C9_disconnect_no_handle_noop ⟨none, none, none, 0⟩ rfl).1

/-- C10: `disconnect` does not clear the stored client reference (lines
50-52 write no attribute), so after a disconnect the manager state is
unchanged, the handle is still stored, and `get_client` still returns it
instead of failing with "Client not initialized". -/
theorem C10_disconnect_keeps_client (s : TelegramClientManager)
    (h : TelegramClient) (hs : s.client = some h) :
    (s.disconnect).1 = s ∧
    (s.disconnect).1.client = some h ∧
    ((s.disconnect).1).get_client = .ok h := by
  simp [TelegramClientManager.disconnect, TelegramClientManager.get_client, hs]

/-- C10 witness: a manager holding handle 0. -/
theorem C10_disconnect_keeps_client_witness :
    (TelegramClientManager.disconnect
        ⟨some ⟨0, "session_name", 1, "a"⟩, some 1, some "a", 1⟩).1.client =
      some ⟨0, "session_name", 1, "a"⟩ :=
  (C10_disconnect_keeps_client ⟨some ⟨0, "session_name", 1, "a"⟩, some 1,
    some "a", 1⟩ ⟨0, "session_name", 1, "a"⟩ rfl).2.1

/-- Discriminator for `upload_file` calls. -/
def Call.isUpload : Call → Bool
  | Call.upload_file _ => true
  | _ => false

/-- Discriminator for `SendStoryRequest` calls. -/
def Call.isStoryPost : Call → Bool
  | Call.send_story_request _ _ _ _ => true
  | _ => false

/-- C4: when `is_user_authorized()` returns false, POST /send_story stops
with an error after that single query: the call trace is exactly
`[is_user_authorized]`, so no `upload_file` and no `SendStoryRequest` call
reaches the external client. -/
theorem C4_send_story_rejected_before_upload (s : TelegramClientManager)
    (h : TelegramClient) (w : World) (r : StoryRequest)
    (hc : s.client = some h)
    (ha : w.is_user_authorized_result = .ok false) :
    (send_story s w r).2 = [Call.is_user_authorized] ∧
    (∀ c ∈ (send_story s w r).2,
        c.isUpload = false ∧ c.isStoryPost = false) ∧
    (∃ e : Http, (send_story s w r).1 = .error e) := by
  have hrun : send_story s w r =
      (.error ⟨500, httpStr 401 "Unauthorized. Please authenticate first."⟩,
        [Call.is_user_authorized]) := by
    simp [send_story, hc, ha]
  rw [hrun]
  refine ⟨rfl, ?_,
    ⟨⟨500, httpStr 401 "Unauthorized. Please authenticate first."⟩, rfl⟩⟩
  intro c hin
  simp only [List.mem_singleton] at hin
  subst hin
  exact ⟨rfl, rfl⟩

/-- C4 witness: unauthorized concrete run issues only the
`is_user_authorized` query. -/
theorem C4_send_story_rejected_before_upload_witness :
    (send_story ⟨some ⟨0, "session_name", 1, "a"⟩, some 1, some "a", 1⟩
        ⟨.ok "h", .success, .ok "n", .ok false, .ok 0, .ok ()⟩
        ⟨"me", "f.jpg", true, 42⟩).2 = [Call.is_user_authorized] :=
  (C4_send_story_rejected_before_upload _ ⟨0, "session_name", 1, "a"⟩ _
    ⟨"me", "f.jpg", true, 42⟩ rfl rfl).1

/-- C5: re-initializing with an existing handle issues exactly the
disconnect of the old handle followed by the connect of the new one
(close-then-open), and along every prefix of that trace at most one
connection is live (starting from the one existing live connection). -/
theorem C5_initialize_close_then_open (s : TelegramClientManager)
    (h : TelegramClient) (aid : Int) (ah : String)
    (hc : s.client = some h) :
    (s.initialize_client aid ah).2 =
      [Call.disconnect h.id, Call.connect s.next_id] ∧
    (∀ n, live_after 1 ((s.initialize_client aid ah).2.take n) ≤ 1) := by
  have ht : (s.initialize_client aid ah).2 =
      [Call.disconnect h.id, Call.connect s.next_id] := by
    simp [TelegramClientManager.initialize_client, hc]
  refine ⟨ht, ?_⟩
  intro n
  rw [ht]
  match n with
  | 0 => simp [live_after]
  | 1 => simp [live_after, List.take]
  | k + 2 => simp [live_after, List.take]

/-- C5 witness: re-initializing a manager holding handle 0 disconnects
handle 0 before connecting handle 1. -/
theorem C5_initialize_close_then_open_witness :
    (TelegramClientManager.initialize_client
        ⟨some ⟨0, "session_name", 1, "a"⟩, some 1, some "a", 1⟩ 2 "b").2 =
      [Call.disconnect 0, Call.connect 1] :=
  (C5_initialize_close_then_open ⟨some ⟨0, "session_name", 1, "a"⟩, some 1,
    some "a", 1⟩ ⟨0, "session_name", 1, "a"⟩ 2 "b" rfl).1

/-- String append is associative. -/
theorem string_append_assoc (a b c : String) :
    a ++ b ++ c = a ++ (b ++ c) := by
  apply string_eq_of_data
  simp [String.data_append, List.append_assoc]

/-- C6: uploads with distinct generated identifiers give distinct retrieval
paths even for identical original filenames; every returned path is
`/uploads/<generated-id><ext>` with `<ext>` the original filename's
`os.path.splitext` extension; the path depends only on the generated id
and the extension, never on the original base name; and the extension of
`photo.jpg` is `.jpg`, so its path is `/uploads/<id>.jpg`. -/
theorem C6_upload_paths :
    (∀ u₁ u₂ f : String, u₁ ≠ u₂ →
        upload_image u₁ f ≠ upload_image u₂ f) ∧
    (∀ u f : String,
        upload_image u f = "/uploads/" ++ u ++ (splitext f).2) ∧
    (∀ u f₁ f₂ : String, (splitext f₁).2 = (splitext f₂).2 →
        upload_image u f₁ = upload_image u f₂) ∧
    splitext "photo.jpg" = ("photo", ".jpg") := by
  refine ⟨?_, ?_, ?_, by decide⟩
  · intro u₁ u₂ f hne heq
    apply hne
    apply string_append_cancel "/uploads/" u₁ u₂ (splitext f).2
    simpa [upload_image, unique_filename, string_append_assoc] using heq
  · intro u f
    simp [upload_image, unique_filename, string_append_assoc]
  · intro u f₁ f₂ hext
    simp [upload_image, unique_filename, hext]

/-- C6 witness: two uploads of `photo.jpg` under distinct generated ids
yield distinct paths. -/
theorem C6_upload_paths_witness :
    upload_image "id1" "photo.jpg" ≠ upload_image "id2" "photo.jpg" :=
  C6_upload_paths.1 "id1" "id2" "photo.jpg" (by decide)

/-- C8: POST /generate_otp re-initializes the shared client with the
supplied application id and secret (the stored handle carries exactly
those credentials), then issues `send_code_request` for the supplied phone
with `force_sms=True` after the initialization calls, and when the
external service succeeds it returns that result's `phone_code_hash`. -/
theorem C8_generate_otp_flow (s : TelegramClientManager) (w : World)
    (pn : PhoneNumber) (hash : String)
    (hw : w.send_code_result = .ok hash) :
    (generate_otp s w pn).1 = .ok hash ∧
    (generate_otp s w pn).2.1 =
      (s.initialize_client pn.app_id pn.app_hash).1 ∧
    (generate_otp s w pn).2.1.client =
      some ⟨s.next_id, session_file_path, pn.app_id, pn.app_hash⟩ ∧
    (generate_otp s w pn).2.2 =
      (s.initialize_client pn.app_id pn.app_hash).2 ++
        [Call.send_code_request pn.phone true] := by
  simp [generate_otp, hw, TelegramClientManager.initialize_client]

/-- C8 witness: concrete run from the fresh state with a successful code
request. -/
theorem C8_generate_otp_flow_witness :
    (generate_otp ⟨none, none, none, 0⟩
        ⟨.ok "T1", .success, .ok "n", .ok true, .ok 0, .ok ()⟩
        ⟨"+15550001", 123, "abc"⟩).1 = .ok "T1" :=
  (C8_generate_otp_flow ⟨none, none, none, 0⟩
    ⟨.ok "T1", .success, .ok "n", .ok true, .ok 0, .ok ()⟩
    ⟨"+15550001", 123, "abc"⟩ "T1" rfl).1
